import Mathlib

/-!
# SLiRP glue of the emulator: `src/network/net_slirp.c`

A shallow embedding of the functions of `net_slirp.c`.

* The four file-scope variables `slirpq`, `poll_tid`, `poll_card`, `poll_state`
  are the fields of `Globals`; a pointer is an `Option` (`none` is `NULL`).
* Every function returns the globals it leaves behind together with the list of
  the calls and global assignments it performs itself, in program order (`Ev`).
  `slirp_log` is compiled to an empty body and is not recorded.
* What the C standard leaves undefined (a `memcpy` that reads or writes out of
  bounds, a call through a null `poll_card`) is the result `none`.
* What the surroundings decide (return values of the stack and of the platform,
  frames the stack hands back through `slirp_output` while it is being called,
  the other thread clearing `slirpq`) is an explicit argument.
-/

namespace NetSlirp

/-- A `struct queuepacket`: the `len` field and the bytes copied into `data`. -/
structure queuepacket where
  len : Int
  data : List Nat
deriving DecidableEq, Repr

/-- Modelled from the spec: the frame queue behind `queueADT` (`slirp/queue.h`, not among
the sources) is "an ordered sequence of Frames, FIFO order". -/
abbrev queueADT := List queuepacket

/-- Modelled from the spec: `QueueCreate` makes the empty frame queue. -/
def QueueCreate : queueADT := []

/-- Modelled from the spec: `QueueEnter` "appends a Frame to the tail". -/
def QueueEnter (q : queueADT) (qp : queuepacket) : queueADT := q ++ [qp]

/-- Modelled from the spec: `QueuePeek` "returns current number of queued frames without
removing any". -/
def QueuePeek (q : queueADT) : Int := (q.length : Int)

/-- Modelled from the spec: `QueueDelete` "removes and returns the head Frame"; it fails on
an empty queue. -/
def QueueDelete : queueADT → Option (queuepacket × queueADT)
  | [] => none
  | qp :: rest => some (qp, rest)

/-- The calls and the assignments to globals that the functions of `net_slirp.c` perform. -/
inductive Ev where
  | slirp_init
  | slirp_exit (code : Int)
  | slirp_input (pkt : Option (List Nat)) (pkt_len : Int)
  | slirp_select_fill
  | select (nfds : Int) (tv_sec : Int) (tv_usec : Int)
  | slirp_select_poll
  | QueueCreate
  | QueueEnter (qp : queuepacket)
  | QueuePeek
  | QueueDelete
  | QueueDestroy (q : queueADT)
  | malloc
  | memcpy (n : Int)
  | free (qp : queuepacket)
  | rx (card : Nat) (data : List Nat) (len : Int)
  | network_wait (x : Nat)
  | network_busy (x : Nat)
  | network_poll
  | thread_create_event
  | thread_create (arg : Option (List Nat))
  | thread_wait_event (evt : Option Nat) (timeout : Int)
  | thread_set_event (evt : Option Nat)
  | thread_destroy_event (evt : Option Nat)
  | set_slirpq (v : Option queueADT)
  | set_poll_tid (v : Option Nat)
  | set_poll_state (v : Option Nat)
  | set_poll_card (v : Option Nat)
deriving DecidableEq, Repr

/-- The file-scope variables of `net_slirp.c`. -/
structure Globals where
  slirpq : Option queueADT
  poll_tid : Option Nat
  poll_card : Option Nat
  poll_state : Option Nat
deriving DecidableEq, Repr

/-- The condition under which `memcpy(qp->data, pkt, pkt_len)` is defined: `pkt` points to
at least `pkt_len` readable bytes, `pkt_len` is not negative (it is converted to `size_t`),
and it fits the `data` array of `dataSize` bytes (declared in `slirp/queue.h`). -/
def copy_ok (dataSize : Nat) (pkt : Option (List Nat)) (pkt_len : Int) : Prop :=
  match pkt with
  | none => False
  | some buf => 0 ≤ pkt_len ∧ pkt_len ≤ (buf.length : Int) ∧ pkt_len ≤ (dataSize : Int)

instance (dataSize : Nat) (pkt : Option (List Nat)) (pkt_len : Int) :
    Decidable (copy_ok dataSize pkt pkt_len) := by
  unfold copy_ok
  cases pkt <;> infer_instance

/-- The bytes `memcpy(qp->data, pkt, pkt_len)` leaves in `data`, when it is defined. -/
def memcpy (dataSize : Nat) (pkt : Option (List Nat)) (pkt_len : Int) : Option (List Nat) :=
  match pkt with
  | none => none
  | some buf =>
    if 0 ≤ pkt_len ∧ pkt_len ≤ (buf.length : Int) ∧ pkt_len ≤ (dataSize : Int) then
      some (buf.take pkt_len.toNat)
    else none

/-- The function `slirp_output` (lines 258-269). `malloc` is taken to succeed. -/
def slirp_output (dataSize : Nat) (g : Globals) (pkt : Option (List Nat)) (pkt_len : Int) :
    Option (Globals × List Ev) :=
  match g.slirpq with
  | none => some (g, [])
  | some q =>
    match memcpy dataSize pkt pkt_len with
    | none => none
    | some data =>
      let qp : queuepacket := { len := pkt_len, data := data }
      some ({ g with slirpq := some (QueueEnter q qp) },
            [Ev.malloc, Ev.memcpy pkt_len, Ev.QueueEnter qp])

/-- The function `slirp_can_output` (lines 272-277). -/
def slirp_can_output (g : Globals) : Int :=
  if g.slirpq ≠ none then 1 else 0

/-- The globals after the stack has called `slirp_output` on each of `outs` in turn (the
calls it makes back into this file while one of its own routines runs). -/
def stack_outputs (dataSize : Nat) : Globals → List (Option (List Nat) × Int) → Option Globals
  | g, [] => some g
  | g, o :: rest =>
    match slirp_output dataSize g o.1 o.2 with
    | none => none
    | some r => stack_outputs dataSize r.1 rest

/-- What the surroundings decide during one `slirp_tic`: the `nfds` that `slirp_select_fill`
stores, its return value `tmo`, the return value `ret2` of `select`, and the frames the
stack passes to `slirp_output` from within `slirp_select_poll`. -/
structure TicEnv where
  nfds : Int
  tmo : Int
  ret2 : Int
  outs : List (Option (List Nat) × Int)
deriving DecidableEq, Repr

/-- The function `slirp_tic` (lines 89-115). -/
def slirp_tic (dataSize : Nat) (g : Globals) (e : TicEnv) : Option (Globals × List Ev) :=
  let tmo : Int := if e.tmo < 0 then 500 else e.tmo
  let tv_sec : Int := 0
  let tv_usec : Int := tmo
  if e.ret2 ≥ 0 then
    match stack_outputs dataSize g e.outs with
    | none => none
    | some g1 =>
      some (g1, [Ev.slirp_select_fill, Ev.select (e.nfds + 1) tv_sec tv_usec,
                 Ev.slirp_select_poll])
  else
    some (g, [Ev.slirp_select_fill, Ev.select (e.nfds + 1) tv_sec tv_usec])

/-- What the surroundings decide during one iteration of the loop of `poll_thread`: the
`slirp_tic` part, whether the other thread (`net_slirp_close`) clears `slirpq` before the
re-check of line 142, and whether it does so after the body, before the loop condition of
line 131 is read again. -/
structure IterEnv where
  tic : TicEnv
  nuked : Bool
  nukedLate : Bool
deriving DecidableEq, Repr

/-- One pass through the body of the `while` loop of `poll_thread` (lines 132-161), entered
with `slirpq` non-null. `evt` is the private event made by `thread_create_event`. The
`Bool` tells whether the body was left through the `break` of line 142. The second
`QueuePeek` is the argument of the `slirp_log` call of line 148. -/
def poll_body (dataSize : Nat) (evt : Option Nat) (g : Globals) (e : IterEnv) :
    Option (Globals × List Ev × Bool) :=
  match slirp_tic dataSize g e.tic with
  | none => none
  | some (g1, tev) =>
    let g2 : Globals := if e.nuked then { g1 with slirpq := none } else g1
    let pre : List Ev := [Ev.network_wait 1, Ev.network_poll] ++ tev
    match g2.slirpq with
    | none => some (g2, pre, true)
    | some q =>
      if QueuePeek q ≠ 0 then
        match QueueDelete q, g2.poll_card with
        | some (qp, q1), some card =>
          some ({ g2 with slirpq := some q1 },
                pre ++ [Ev.QueuePeek, Ev.QueueDelete, Ev.QueuePeek,
                        Ev.rx card qp.data qp.len, Ev.free qp, Ev.network_wait 0],
                false)
        | _, _ => none
      else
        some (g2, pre ++ [Ev.QueuePeek, Ev.thread_wait_event evt 10, Ev.network_wait 0], false)

/-- The `while (slirpq != NULL)` loop of `poll_thread`, run for at most as many iterations
as `envs` describes. The result lists the calls of each iteration separately; the `Bool`
tells whether the loop has been left (`false`: `envs` ended with the loop still running). -/
def poll_loop (dataSize : Nat) (evt : Option Nat) :
    Globals → List IterEnv → Option (Globals × List (List Ev) × Bool)
  | g, [] => some (g, [], g.slirpq.isNone)
  | g, e :: rest =>
    match g.slirpq with
    | none => some (g, [], true)
    | some _ =>
      match poll_body dataSize evt g e with
      | none => none
      | some (g1, evs, true) => some (g1, [evs], true)
      | some (g1, evs, false) =>
        let g2 : Globals := if e.nukedLate then { g1 with slirpq := none } else g1
        match poll_loop dataSize evt g2 rest with
        | none => none
        | some (g3, tr, fin) => some (g3, evs :: tr, fin)

/-- The function `poll_thread` (lines 118-170). `evt` is what `thread_create_event`
returns. The `Bool` tells whether the thread has run to its end. -/
def poll_thread (dataSize : Nat) (evt : Option Nat) (g : Globals) (envs : List IterEnv) :
    Option (Globals × List Ev × Bool) :=
  match poll_loop dataSize evt g envs with
  | none => none
  | some (g1, tr, fin) =>
    let start : List Ev := [Ev.thread_set_event g.poll_state, Ev.thread_create_event] ++ tr.flatten
    if fin then
      some (g1,
            start ++ (if evt ≠ none then [Ev.thread_destroy_event evt] else [])
              ++ [Ev.thread_set_event g1.poll_state],
            true)
    else some (g1, start, false)

/-- The function `net_slirp_init` (lines 173-191); `rc` is the return value of `slirp_init`. -/
def net_slirp_init (g : Globals) (rc : Int) : Int × Globals × List Ev :=
  if rc ≠ 0 then (-1, g, [Ev.slirp_init])
  else
    (0,
     { slirpq := some QueueCreate, poll_tid := none, poll_state := none, poll_card := none },
     [Ev.slirp_init, Ev.QueueCreate, Ev.set_slirpq (some QueueCreate),
      Ev.set_poll_tid none, Ev.set_poll_state none, Ev.set_poll_card none])

/-- The function `net_slirp_reset` (lines 194-207); `evt` is what `thread_create_event`
returns and `tid` what `thread_create` returns. -/
def net_slirp_reset (g : Globals) (card : Option Nat) (mac : Option (List Nat))
    (evt tid : Option Nat) : Int × Globals × List Ev :=
  (0,
   { g with poll_card := card, poll_state := evt, poll_tid := tid },
   [Ev.set_poll_card card, Ev.thread_create_event, Ev.set_poll_state evt,
    Ev.thread_create mac, Ev.set_poll_tid tid, Ev.thread_wait_event evt (-1)])

/-- The function `net_slirp_close` (lines 210-240). -/
def net_slirp_close (g : Globals) : Globals × List Ev :=
  match g.slirpq with
  | none => (g, [])
  | some sl =>
    let g1 : Globals := { g with slirpq := none }
    if g1.poll_tid ≠ none then
      ({ g1 with poll_tid := none, poll_state := none, poll_card := none },
       [Ev.set_slirpq none, Ev.network_busy 0, Ev.thread_wait_event g1.poll_state (-1),
        Ev.thread_destroy_event g1.poll_state, Ev.set_poll_tid none, Ev.set_poll_state none,
        Ev.set_poll_card none, Ev.QueueDestroy sl, Ev.slirp_exit 0])
    else
      (g1, [Ev.set_slirpq none, Ev.QueueDestroy sl, Ev.slirp_exit 0])

/-- The function `net_slirp_in` (lines 243-254); `outs` are the frames the stack passes
to `slirp_output` from within `slirp_input`. -/
def net_slirp_in (dataSize : Nat) (g : Globals) (pkt : Option (List Nat)) (pkt_len : Int)
    (outs : List (Option (List Nat) × Int)) : Option (Globals × List Ev) :=
  match g.slirpq with
  | none => some (g, [])
  | some _ =>
    match stack_outputs dataSize g outs with
    | none => none
    | some g1 =>
      some (g1, [Ev.network_busy 1, Ev.slirp_input pkt pkt_len, Ev.network_busy 0])

/-- Whether an event is the bounded wait `select` of `slirp_tic`. -/
def isSelect : Ev → Bool
  | Ev.select _ _ _ => true
  | _ => false

/-- Whether an event is a call of the receive entry point of the card. -/
def isRx : Ev → Bool
  | Ev.rx _ _ _ => true
  | _ => false

/-- The frame `slirp_output` stores for an argument pair. -/
def frameOf (o : Option (List Nat) × Int) : queuepacket :=
  { len := o.2, data := (o.1.getD []).take o.2.toNat }

/-- The frames that enter the queue during one `slirp_tic`: those the stack passes to
`slirp_output` from `slirp_select_poll`, which runs when `select` did not fail. -/
def tic_frames (e : TicEnv) : List queuepacket :=
  if e.ret2 ≥ 0 then e.outs.map frameOf else []

/-! ## Auxiliary facts -/

theorem memcpy_of_copy_ok (dataSize : Nat) (pkt : Option (List Nat)) (pkt_len : Int)
    (h : copy_ok dataSize pkt pkt_len) :
    memcpy dataSize pkt pkt_len = some ((pkt.getD []).take pkt_len.toNat) := by
  cases pkt with
  | none => exact absurd h (by simp [copy_ok])
  | some buf =>
    have h1 : 0 ≤ pkt_len ∧ pkt_len ≤ (buf.length : Int) ∧ pkt_len ≤ (dataSize : Int) := h
    simp [memcpy, h1]

theorem copy_ok_of_memcpy (dataSize : Nat) (pkt : Option (List Nat)) (pkt_len : Int)
    (data : List Nat) (h : memcpy dataSize pkt pkt_len = some data) :
    copy_ok dataSize pkt pkt_len := by
  cases pkt with
  | none => simp [memcpy] at h
  | some buf =>
    by_cases h1 : 0 ≤ pkt_len ∧ pkt_len ≤ (buf.length : Int) ∧ pkt_len ≤ (dataSize : Int)
    · exact h1
    · simp [memcpy, h1] at h

theorem slirp_output_of_queue (dataSize : Nat) (g : Globals) (q : queueADT)
    (pkt : Option (List Nat)) (pkt_len : Int)
    (hq : g.slirpq = some q) (h : copy_ok dataSize pkt pkt_len) :
    slirp_output dataSize g pkt pkt_len
      = some ({ g with slirpq := some (q ++ [frameOf (pkt, pkt_len)]) },
              [Ev.malloc, Ev.memcpy pkt_len, Ev.QueueEnter (frameOf (pkt, pkt_len))]) := by
  simp [slirp_output, hq, memcpy_of_copy_ok dataSize pkt pkt_len h, QueueEnter, frameOf]

theorem stack_outputs_of_queue (dataSize : Nat) (outs : List (Option (List Nat) × Int)) :
    ∀ (g : Globals) (q : queueADT), g.slirpq = some q →
      (∀ o ∈ outs, copy_ok dataSize o.1 o.2) →
      stack_outputs dataSize g outs
        = some { g with slirpq := some (q ++ outs.map frameOf) } := by
  induction outs with
  | nil =>
    intro g q hq _
    cases g
    simp_all [stack_outputs]
  | cons o rest ih =>
    intro g q hq h
    have ho : copy_ok dataSize o.1 o.2 := h o (List.mem_cons_self _ _)
    have hr : ∀ x ∈ rest, copy_ok dataSize x.1 x.2 :=
      fun x hx => h x (List.mem_cons_of_mem _ hx)
    have h1 := slirp_output_of_queue dataSize g q o.1 o.2 hq ho
    simp only [stack_outputs, h1]
    rw [ih _ (q ++ [frameOf (o.1, o.2)]) rfl hr]
    simp

theorem stack_outputs_of_null (dataSize : Nat) (outs : List (Option (List Nat) × Int)) :
    ∀ (g : Globals), g.slirpq = none → stack_outputs dataSize g outs = some g := by
  induction outs with
  | nil => intro g _; rfl
  | cons o rest ih =>
    intro g hq
    simp only [stack_outputs, slirp_output, hq]
    exact ih g hq

theorem stack_outputs_defined (dataSize : Nat) (g : Globals)
    (outs : List (Option (List Nat) × Int))
    (h : ∀ o ∈ outs, copy_ok dataSize o.1 o.2) :
    ∃ g1, stack_outputs dataSize g outs = some g1 := by
  cases hq : g.slirpq with
  | none => exact ⟨g, stack_outputs_of_null dataSize outs g hq⟩
  | some q => exact ⟨_, stack_outputs_of_queue dataSize outs g q hq h⟩

theorem slirp_tic_of_queue (dataSize : Nat) (g : Globals) (q : queueADT) (e : TicEnv)
    (hq : g.slirpq = some q) (houts : ∀ o ∈ e.outs, copy_ok dataSize o.1 o.2) :
    ∃ tev, slirp_tic dataSize g e
        = some ({ g with slirpq := some (q ++ tic_frames e) }, tev) ∧
      tev.filter isRx = [] := by
  by_cases hr : e.ret2 ≥ 0
  · have h1 := stack_outputs_of_queue dataSize e.outs g q hq houts
    have htf : tic_frames e = e.outs.map frameOf := by simp [tic_frames, hr]
    refine ⟨[Ev.slirp_select_fill,
      Ev.select (e.nfds + 1) 0 (if e.tmo < 0 then 500 else e.tmo), Ev.slirp_select_poll], ?_, ?_⟩
    · simp only [slirp_tic, hr, h1, if_true, htf]
    · simp [List.filter, isRx]
  · refine ⟨[Ev.slirp_select_fill,
      Ev.select (e.nfds + 1) 0 (if e.tmo < 0 then 500 else e.tmo)], ?_, ?_⟩
    · have hr2 : ¬ (0 ≤ e.ret2) := hr
      have htf : tic_frames e = [] := by simp [tic_frames, hr]
      cases g
      simp only at hq
      subst hq
      simp [slirp_tic, hr2, htf]
    · simp [List.filter, isRx]

theorem poll_body_delivers (dataSize : Nat) (evt : Option Nat) (g : Globals)
    (qp : queuepacket) (q : queueADT) (card : Nat) (e : IterEnv)
    (hq : g.slirpq = some (qp :: q)) (hc : g.poll_card = some card)
    (hn : e.nuked = false) (houts : ∀ o ∈ e.tic.outs, copy_ok dataSize o.1 o.2) :
    ∃ evs, poll_body dataSize evt g e
        = some ({ g with slirpq := some (q ++ tic_frames e.tic) },
                evs, false) ∧
      evs.filter isRx = [Ev.rx card qp.data qp.len] := by
  obtain ⟨tev, h1, h2⟩ := slirp_tic_of_queue dataSize g (qp :: q) e.tic hq houts
  have hpeek : ∀ l : queueADT, QueuePeek (qp :: l) ≠ 0 := by
    intro l
    simp only [QueuePeek, List.length_cons]
    omega
  refine ⟨[Ev.network_wait 1, Ev.network_poll] ++ tev
      ++ [Ev.QueuePeek, Ev.QueueDelete, Ev.QueuePeek, Ev.rx card qp.data qp.len,
          Ev.free qp, Ev.network_wait 0], ?_, ?_⟩
  · simp only [poll_body, h1, hn, List.cons_append, hc]
    simp [hpeek, QueueDelete]
  · simp [List.filter_append, h2, List.filter, isRx]

theorem poll_loop_delivers (dataSize : Nat) (evt : Option Nat) (card : Nat)
    (envs : List IterEnv) :
    ∀ (front rest : queueADT) (g : Globals),
      g.slirpq = some (front ++ rest) → g.poll_card = some card →
      envs.length = front.length →
      (∀ e ∈ envs, e.nuked = false ∧ e.nukedLate = false) →
      (∀ e ∈ envs, ∀ o ∈ e.tic.outs, copy_ok dataSize o.1 o.2) →
      ∃ g2 tr, poll_loop dataSize evt g envs = some (g2, tr, false) ∧
        tr.map (List.filter isRx) = front.map (fun qp => [Ev.rx card qp.data qp.len]) := by
  induction envs with
  | nil =>
    intro front rest g hq _ hlen _ _
    have hf : front = [] := List.length_eq_zero.mp hlen.symm
    subst hf
    exact ⟨g, [], by simp [poll_loop, hq], rfl⟩
  | cons e es ih =>
    intro front rest g hq hc hlen hnn houts
    cases front with
    | nil => simp at hlen
    | cons qp front1 =>
      have he := hnn e (List.mem_cons_self _ _)
      obtain ⟨evs, hb, hrx⟩ := poll_body_delivers dataSize evt g qp (front1 ++ rest) card e
        hq hc he.1 (houts e (List.mem_cons_self _ _))
      obtain ⟨g2, tr, hl, htr⟩ := ih front1
        (rest ++ tic_frames e.tic)
        { g with slirpq := some (front1 ++ rest ++ tic_frames e.tic) }
        (by simp) hc (by simpa using hlen)
        (fun x hx => hnn x (List.mem_cons_of_mem _ hx))
        (fun x hx => houts x (List.mem_cons_of_mem _ hx))
      rw [List.append_assoc] at hl
      refine ⟨g2, evs :: tr, ?_, ?_⟩
      · simp only [poll_loop, hq, hb, he.2]
        simp only [List.append_assoc]
        simp [hl]
      · simp [hrx, htr]

/-! ## `net_slirp_reset` -/

/-- C1 (as stated, refuted): called with `slirpq` null, `net_slirp_reset` returns `0`, not a
failure, and it does create the startup event and spawn the poll thread. -/
theorem net_slirp_reset_null_succeeds :
    net_slirp_reset { slirpq := none, poll_tid := none, poll_card := none, poll_state := none }
        (some 1) (some [82, 84, 0, 18, 52, 86]) (some 7) (some 9)
      = (0,
         { slirpq := none, poll_tid := some 9, poll_card := some 1, poll_state := some 7 },
         [Ev.set_poll_card (some 1), Ev.thread_create_event, Ev.set_poll_state (some 7),
          Ev.thread_create (some [82, 84, 0, 18, 52, 86]), Ev.set_poll_tid (some 9),
          Ev.thread_wait_event (some 7) (-1)]) := by
  rfl

/-- C1 (amended): `net_slirp_reset` does not look at `slirpq`. In every state, the null
handle included, it returns `0`, stores `card` in `poll_card`, creates the startup event,
spawns the poll thread with `mac`, waits without bound on the new event, and leaves
`slirpq` as it was. -/
theorem net_slirp_reset_always_succeeds (g : Globals) (card : Option Nat)
    (mac : Option (List Nat)) (evt tid : Option Nat) :
    (net_slirp_reset g card mac evt tid).1 = 0 ∧
    (net_slirp_reset g card mac evt tid).2.1
      = { slirpq := g.slirpq, poll_tid := tid, poll_card := card, poll_state := evt } ∧
    (net_slirp_reset g card mac evt tid).2.2.filter
        (fun ev => decide (ev = Ev.thread_create_event) || decide (ev = Ev.thread_create mac)
          || decide (ev = Ev.thread_wait_event evt (-1)))
      = [Ev.thread_create_event, Ev.thread_create mac, Ev.thread_wait_event evt (-1)] := by
  refine ⟨rfl, rfl, ?_⟩
  simp [net_slirp_reset, List.filter]

/-! ## `net_slirp_in` -/

/-- C3: with `slirpq` null `net_slirp_in` makes no call and leaves the globals alone; with
`slirpq` non-null it makes exactly the calls `network_busy(1)`, `slirp_input(pkt, pkt_len)`,
`network_busy(0)`, in this order, with the same `pkt` and `pkt_len`. -/
theorem net_slirp_in_calls (dataSize : Nat) (g : Globals) (pkt : Option (List Nat))
    (pkt_len : Int) (outs : List (Option (List Nat) × Int))
    (houts : ∀ o ∈ outs, copy_ok dataSize o.1 o.2) :
    (g.slirpq = none → net_slirp_in dataSize g pkt pkt_len outs = some (g, [])) ∧
    (g.slirpq ≠ none → ∃ g1, net_slirp_in dataSize g pkt pkt_len outs
        = some (g1, [Ev.network_busy 1, Ev.slirp_input pkt pkt_len, Ev.network_busy 0])) := by
  constructor
  · intro hq
    simp [net_slirp_in, hq]
  · intro hq
    obtain ⟨g1, h1⟩ := stack_outputs_defined dataSize g outs houts
    refine ⟨g1, ?_⟩
    cases hs : g.slirpq with
    | none => exact absurd hs hq
    | some q => simp [net_slirp_in, hs, h1]

/-- C3, at the frame `AA BB CC` of the end-to-end scenario of the specification, once
with a session and once without. -/
theorem net_slirp_in_calls_witness :
    (∃ g1, net_slirp_in 2000
        { slirpq := some [], poll_tid := some 9, poll_card := some 1, poll_state := some 7 }
        (some [170, 187, 204]) 3 []
        = some (g1, [Ev.network_busy 1, Ev.slirp_input (some [170, 187, 204]) 3,
                     Ev.network_busy 0])) ∧
    net_slirp_in 2000
        { slirpq := none, poll_tid := none, poll_card := none, poll_state := none }
        (some [170, 187, 204]) 3 []
      = some ({ slirpq := none, poll_tid := none, poll_card := none, poll_state := none }, []) :=
  ⟨(net_slirp_in_calls 2000
      { slirpq := some [], poll_tid := some 9, poll_card := some 1, poll_state := some 7 }
      (some [170, 187, 204]) 3 [] (by simp)).2 (by simp),
   (net_slirp_in_calls 2000
      { slirpq := none, poll_tid := none, poll_card := none, poll_state := none }
      (some [170, 187, 204]) 3 [] (by simp)).1 rfl⟩

/-! ## `slirp_tic` -/

/-- C5 (as stated, refuted): when `slirp_select_fill` returns `-1`, the wait is
`select` with `tv_sec = 0` and `tv_usec = 500`, that is 500 microseconds and not
500000. -/
theorem slirp_tic_default_is_500_usec :
    slirp_tic 2000
        { slirpq := some [], poll_tid := some 9, poll_card := some 1, poll_state := some 7 }
        { nfds := -1, tmo := -1, ret2 := 0, outs := [] }
      = some ({ slirpq := some [], poll_tid := some 9, poll_card := some 1,
                poll_state := some 7 },
              [Ev.slirp_select_fill, Ev.select 0 0 500, Ev.slirp_select_poll]) ∧
    (500 : Int) ≠ 500000 := by
  constructor
  · rfl
  · decide

/-- C5 (amended): `slirp_tic` waits exactly once, with `tv_sec = 0`; when
`slirp_select_fill` returns a negative value `tv_usec` is `500` (500 microseconds), and
when it returns a non-negative value `tv_usec` is exactly that value. -/
theorem slirp_tic_timeout (dataSize : Nat) (g : Globals) (e : TicEnv)
    (houts : ∀ o ∈ e.outs, copy_ok dataSize o.1 o.2) :
    ∃ g1 evs, slirp_tic dataSize g e = some (g1, evs) ∧
      (e.tmo < 0 → evs.filter isSelect = [Ev.select (e.nfds + 1) 0 500]) ∧
      (0 ≤ e.tmo → evs.filter isSelect = [Ev.select (e.nfds + 1) 0 e.tmo]) := by
  obtain ⟨g1, h1⟩ := stack_outputs_defined dataSize g e.outs houts
  by_cases hr : e.ret2 ≥ 0
  · refine ⟨g1, _, by simp only [slirp_tic, hr, h1, if_true]; rfl, ?_, ?_⟩
    · intro ht
      simp [ht, List.filter, isSelect]
    · intro ht
      have : ¬ e.tmo < 0 := not_lt.mpr ht
      simp [this, List.filter, isSelect]
  · refine ⟨g, _, by simp only [slirp_tic, hr, if_false]; rfl, ?_, ?_⟩
    · intro ht
      simp [ht, List.filter, isSelect]
    · intro ht
      have : ¬ e.tmo < 0 := not_lt.mpr ht
      simp [this, List.filter, isSelect]

/-- C5 (amended), at the return values `-1` and `250`. -/
theorem slirp_tic_timeout_witness :
    (∃ g1 evs, slirp_tic 2000
        { slirpq := some [], poll_tid := some 9, poll_card := some 1, poll_state := some 7 }
        { nfds := 3, tmo := -1, ret2 := 1, outs := [] } = some (g1, evs) ∧
      evs.filter isSelect = [Ev.select (3 + 1) 0 500]) ∧
    (∃ g1 evs, slirp_tic 2000
        { slirpq := some [], poll_tid := some 9, poll_card := some 1, poll_state := some 7 }
        { nfds := 3, tmo := 250, ret2 := -1, outs := [] } = some (g1, evs) ∧
      evs.filter isSelect = [Ev.select (3 + 1) 0 250]) :=
  ⟨(slirp_tic_timeout 2000
      { slirpq := some [], poll_tid := some 9, poll_card := some 1, poll_state := some 7 }
      { nfds := 3, tmo := -1, ret2 := 1, outs := [] } (by simp)).elim
      (fun g1 h => h.elim (fun evs h2 => ⟨g1, evs, h2.1, h2.2.1 (by decide)⟩)),
   (slirp_tic_timeout 2000
      { slirpq := some [], poll_tid := some 9, poll_card := some 1, poll_state := some 7 }
      { nfds := 3, tmo := 250, ret2 := -1, outs := [] } (by simp)).elim
      (fun g1 h => h.elim (fun evs h2 => ⟨g1, evs, h2.1, h2.2.2 (by decide)⟩))⟩

/-! ## `net_slirp_init` -/

/-- C6: when `slirp_init` returns non-zero, `net_slirp_init` returns `-1`, calls nothing
but `slirp_init` (so no `QueueCreate`) and leaves the four globals as they were; when
`slirp_init` returns `0`, it returns `0`, `slirpq` is the newly created empty queue and
`poll_tid`, `poll_state`, `poll_card` are null. -/
theorem net_slirp_init_atomic (g : Globals) (rc : Int) :
    (rc ≠ 0 → net_slirp_init g rc = (-1, g, [Ev.slirp_init])) ∧
    (rc = 0 →
      (net_slirp_init g rc).1 = 0 ∧
      (net_slirp_init g rc).2.1
        = { slirpq := some [], poll_tid := none, poll_card := none, poll_state := none } ∧
      (net_slirp_init g rc).2.2.filter (fun ev => decide (ev = Ev.QueueCreate))
        = [Ev.QueueCreate]) := by
  constructor
  · intro h
    simp [net_slirp_init, h]
  · intro h
    subst h
    refine ⟨rfl, rfl, ?_⟩
    simp [net_slirp_init, List.filter]

/-- C6, with `slirp_init` returning `-1` in a state that holds a session, and
returning `0`. -/
theorem net_slirp_init_atomic_witness :
    net_slirp_init
        { slirpq := some [⟨1, [5]⟩], poll_tid := some 9, poll_card := some 1,
          poll_state := some 7 } (-1)
      = (-1,
         { slirpq := some [⟨1, [5]⟩], poll_tid := some 9, poll_card := some 1,
           poll_state := some 7 },
         [Ev.slirp_init]) ∧
    (net_slirp_init
        { slirpq := none, poll_tid := some 9, poll_card := some 1, poll_state := some 7 } 0).2.1
      = { slirpq := some [], poll_tid := none, poll_card := none, poll_state := none } :=
  ⟨(net_slirp_init_atomic _ (-1)).1 (by decide),
   ((net_slirp_init_atomic
      { slirpq := none, poll_tid := some 9, poll_card := some 1, poll_state := some 7 } 0).2
      rfl).2.1⟩

/-! ## `slirp_output` and `slirp_can_output` -/

/-- C7: with `slirpq` null, `slirp_output` makes no call (no `malloc`, no `QueueEnter`)
and leaves the globals alone, for every `pkt` and `pkt_len`; `slirp_can_output` returns
`1` exactly when `slirpq` is non-null and `0` otherwise, and it returns `1` exactly when
`slirp_output`, given a frame it can copy, enqueues it. -/
theorem slirp_output_null_noop (dataSize : Nat) (g : Globals) :
    (g.slirpq = none →
      ∀ (pkt : Option (List Nat)) (pkt_len : Int),
        slirp_output dataSize g pkt pkt_len = some (g, [])) ∧
    (slirp_can_output g = 1 ↔ g.slirpq ≠ none) ∧
    (slirp_can_output g = 0 ↔ g.slirpq = none) ∧
    (∀ (pkt : Option (List Nat)) (pkt_len : Int), copy_ok dataSize pkt pkt_len →
      (slirp_can_output g = 1 ↔
        ∃ g1 qp, slirp_output dataSize g pkt pkt_len
          = some (g1, [Ev.malloc, Ev.memcpy pkt_len, Ev.QueueEnter qp]))) := by
  refine ⟨?_, ?_, ?_, ?_⟩
  · intro hq pkt pkt_len
    simp [slirp_output, hq]
  · cases hq : g.slirpq <;> simp [slirp_can_output, hq]
  · cases hq : g.slirpq <;> simp [slirp_can_output, hq]
  · intro pkt pkt_len hc
    cases hq : g.slirpq with
    | none => simp [slirp_can_output, slirp_output, hq]
    | some q =>
      have h1 := slirp_output_of_queue dataSize g q pkt pkt_len hq hc
      simp only [slirp_can_output, hq]
      constructor
      · intro _
        exact ⟨_, _, h1⟩
      · intro _
        simp

/-- C7, after a session has been torn down: a 64-byte frame is dropped, and
`slirp_can_output` says `0`. -/
theorem slirp_output_null_noop_witness :
    slirp_output 2000
        { slirpq := none, poll_tid := none, poll_card := none, poll_state := none }
        (some (List.replicate 64 255)) 64
      = some ({ slirpq := none, poll_tid := none, poll_card := none, poll_state := none }, []) ∧
    slirp_can_output
        { slirpq := none, poll_tid := none, poll_card := none, poll_state := none } = 0 :=
  ⟨(slirp_output_null_noop 2000
      { slirpq := none, poll_tid := none, poll_card := none, poll_state := none }).1 rfl _ _,
   (slirp_output_null_noop 2000
      { slirpq := none, poll_tid := none, poll_card := none, poll_state := none }).2.2.1.mpr rfl⟩

/-- C4 (as stated, refuted): handed a frame of length `0`, `slirp_output` enqueues a
frame whose `len` is `0`. -/
theorem slirp_output_enqueues_empty_frame :
    slirp_output 2000
        { slirpq := some [], poll_tid := some 9, poll_card := some 1, poll_state := some 7 }
        (some [170, 187, 204]) 0
      = some ({ slirpq := some [{ len := 0, data := [] }], poll_tid := some 9,
                poll_card := some 1, poll_state := some 7 },
              [Ev.malloc, Ev.memcpy 0, Ev.QueueEnter { len := 0, data := [] }]) ∧
    ¬ ((0 : Int) < ({ len := 0, data := [] } : queuepacket).len) := by
  constructor
  · rfl
  · decide

/-- C4 (amended): `slirp_output` has no test of `pkt` or `pkt_len`. With `slirpq` non-null
and a copy that is defined (`pkt` non-null, `0 ≤ pkt_len`, at most the bytes readable at
`pkt` and at most the size of `queuepacket.data`) it appends exactly one frame, whose `len`
is `pkt_len` and whose bytes are the first `pkt_len` bytes at `pkt`, also for
`pkt_len = 0`; and whenever it returns, every frame of the queue has
`0 ≤ len ≤ dataSize` if that held before the call. -/
theorem slirp_output_appends (dataSize : Nat) (g : Globals) (pkt : Option (List Nat))
    (pkt_len : Int) :
    (∀ q, g.slirpq = some q → copy_ok dataSize pkt pkt_len →
      slirp_output dataSize g pkt pkt_len
        = some ({ g with slirpq := some (q ++ [⟨pkt_len, (pkt.getD []).take pkt_len.toNat⟩]) },
                [Ev.malloc, Ev.memcpy pkt_len,
                 Ev.QueueEnter ⟨pkt_len, (pkt.getD []).take pkt_len.toNat⟩])) ∧
    (∀ g1 evs, slirp_output dataSize g pkt pkt_len = some (g1, evs) →
      (∀ q, g.slirpq = some q → ∀ p ∈ q, 0 ≤ p.len ∧ p.len ≤ (dataSize : Int)) →
      ∀ q1, g1.slirpq = some q1 →
        ∀ p ∈ q1, 0 ≤ p.len ∧ p.len ≤ (dataSize : Int)) := by
  constructor
  · intro q hq hc
    exact slirp_output_of_queue dataSize g q pkt pkt_len hq hc
  · intro g1 evs h hinv q1 hq1 p hp
    cases hq : g.slirpq with
    | none =>
      simp [slirp_output, hq] at h
      rw [← h.1, hq] at hq1
      exact absurd hq1 (by simp)
    | some q =>
      cases hm : memcpy dataSize pkt pkt_len with
      | none => simp [slirp_output, hq, hm] at h
      | some data =>
        have hc := copy_ok_of_memcpy dataSize pkt pkt_len data hm
        simp [slirp_output, hq, hm, QueueEnter] at h
        rw [← h.1] at hq1
        simp at hq1
        subst hq1
        rcases List.mem_append.mp hp with hp | hp
        · exact hinv q hq p hp
        · simp at hp
          subst hp
          cases pkt with
          | none => exact absurd hc (by simp [copy_ok])
          | some buf =>
            have hc1 : 0 ≤ pkt_len ∧ pkt_len ≤ (buf.length : Int)
                ∧ pkt_len ≤ (dataSize : Int) := hc
            exact ⟨hc1.1, hc1.2.2⟩

/-- C4 (amended), at a frame of three bytes entering a queue that holds one frame. -/
theorem slirp_output_appends_witness :
    slirp_output 2000
        { slirpq := some [⟨1, [5]⟩], poll_tid := some 9, poll_card := some 1,
          poll_state := some 7 }
        (some [170, 187, 204]) 3
      = some ({ slirpq := some [⟨1, [5]⟩, ⟨3, [170, 187, 204]⟩], poll_tid := some 9,
                poll_card := some 1, poll_state := some 7 },
              [Ev.malloc, Ev.memcpy 3, Ev.QueueEnter ⟨3, [170, 187, 204]⟩]) :=
  (slirp_output_appends 2000
    { slirpq := some [⟨1, [5]⟩], poll_tid := some 9, poll_card := some 1, poll_state := some 7 }
    (some [170, 187, 204]) 3).1 [⟨1, [5]⟩] rfl (by decide)

/-! ## `net_slirp_close` -/

/-- C8: with `slirpq` null, `net_slirp_close` makes no call at all (so none of
`network_busy`, `thread_wait_event`, `thread_destroy_event`, `QueueDestroy`, `slirp_exit`)
and leaves the four globals alone; and in every state a second `net_slirp_close` right
after the first makes no call and changes nothing. -/
theorem net_slirp_close_idle_noop :
    (∀ g : Globals, g.slirpq = none → net_slirp_close g = (g, [])) ∧
    (∀ g : Globals,
      net_slirp_close (net_slirp_close g).1 = ((net_slirp_close g).1, [])) := by
  have h1 : ∀ g : Globals, g.slirpq = none → net_slirp_close g = (g, []) := by
    intro g hq
    simp [net_slirp_close, hq]
  refine ⟨h1, ?_⟩
  intro g
  apply h1
  cases hq : g.slirpq with
  | none => rw [h1 g hq]; exact hq
  | some sl =>
    by_cases ht : g.poll_tid = none <;> simp [net_slirp_close, hq, ht]

/-- C8, on a state without a session and on closing a running session twice. -/
theorem net_slirp_close_idle_noop_witness :
    net_slirp_close
        { slirpq := none, poll_tid := some 9, poll_card := some 1, poll_state := some 7 }
      = ({ slirpq := none, poll_tid := some 9, poll_card := some 1, poll_state := some 7 }, []) ∧
    net_slirp_close (net_slirp_close
        { slirpq := some [⟨1, [5]⟩], poll_tid := some 9, poll_card := some 1,
          poll_state := some 7 }).1
      = ({ slirpq := none, poll_tid := none, poll_card := none, poll_state := none }, []) :=
  ⟨net_slirp_close_idle_noop.1 _ rfl, net_slirp_close_idle_noop.2 _⟩

/-- C10: on a session with `slirpq` and `poll_tid` non-null, `net_slirp_close` performs,
in this order: `slirpq = NULL`, `network_busy(0)`, the unbounded wait on `poll_state`,
the destruction of that event, `poll_tid = NULL`, `poll_state = NULL`, `poll_card = NULL`,
`QueueDestroy` on the handle read before it was cleared, `slirp_exit(0)`. With `poll_tid`
null it performs `slirpq = NULL`, `QueueDestroy` on the handle read before, `slirp_exit(0)`
and no wait. -/
theorem net_slirp_close_order (g : Globals) (sl : queueADT) (hq : g.slirpq = some sl) :
    (g.poll_tid ≠ none →
      net_slirp_close g
        = ({ slirpq := none, poll_tid := none, poll_card := none, poll_state := none },
           [Ev.set_slirpq none, Ev.network_busy 0, Ev.thread_wait_event g.poll_state (-1),
            Ev.thread_destroy_event g.poll_state, Ev.set_poll_tid none, Ev.set_poll_state none,
            Ev.set_poll_card none, Ev.QueueDestroy sl, Ev.slirp_exit 0])) ∧
    (g.poll_tid = none →
      net_slirp_close g
        = ({ slirpq := none, poll_tid := none, poll_card := g.poll_card,
             poll_state := g.poll_state },
           [Ev.set_slirpq none, Ev.QueueDestroy sl, Ev.slirp_exit 0])) := by
  constructor
  · intro ht
    simp [net_slirp_close, hq, ht]
  · intro ht
    simp [net_slirp_close, hq, ht]

/-- C10, on a running session that holds one frame, and on a session whose thread was
never started. -/
theorem net_slirp_close_order_witness :
    net_slirp_close
        { slirpq := some [⟨1, [5]⟩], poll_tid := some 9, poll_card := some 1,
          poll_state := some 7 }
      = ({ slirpq := none, poll_tid := none, poll_card := none, poll_state := none },
         [Ev.set_slirpq none, Ev.network_busy 0, Ev.thread_wait_event (some 7) (-1),
          Ev.thread_destroy_event (some 7), Ev.set_poll_tid none, Ev.set_poll_state none,
          Ev.set_poll_card none, Ev.QueueDestroy [⟨1, [5]⟩], Ev.slirp_exit 0]) ∧
    net_slirp_close
        { slirpq := some [], poll_tid := none, poll_card := none, poll_state := none }
      = ({ slirpq := none, poll_tid := none, poll_card := none, poll_state := none },
         [Ev.set_slirpq none, Ev.QueueDestroy [], Ev.slirp_exit 0]) :=
  ⟨(net_slirp_close_order
      { slirpq := some [⟨1, [5]⟩], poll_tid := some 9, poll_card := some 1,
        poll_state := some 7 } [⟨1, [5]⟩] rfl).1 (by decide),
   (net_slirp_close_order
      { slirpq := some [], poll_tid := none, poll_card := none, poll_state := none }
      [] rfl).2 rfl⟩

/-! ## `poll_thread` -/

/-- C2: in a session whose queue is the one `QueueCreate` made and whose card is `card`,
let the frames `fs` be handed to `slirp_output` one after the other, and let the loop of
`poll_thread` then run one iteration per frame with `slirpq` staying non-null (whatever
the stack reports and enqueues meanwhile). Then each iteration calls `poll_card->rx`
exactly once, and the calls carry the bytes and the length of the frames of `fs`, in the
order in which they were handed over. -/
theorem poll_loop_fifo (dataSize : Nat) (evt : Option Nat) (card : Nat) (g : Globals)
    (fs : List (Option (List Nat) × Int)) (envs : List IterEnv)
    (hq : g.slirpq = some QueueCreate) (hc : g.poll_card = some card)
    (hfs : ∀ f ∈ fs, copy_ok dataSize f.1 f.2)
    (hlen : envs.length = fs.length)
    (hnn : ∀ e ∈ envs, e.nuked = false ∧ e.nukedLate = false)
    (houts : ∀ e ∈ envs, ∀ o ∈ e.tic.outs, copy_ok dataSize o.1 o.2) :
    ∃ g1 g2 tr, stack_outputs dataSize g fs = some g1 ∧
      poll_loop dataSize evt g1 envs = some (g2, tr, false) ∧
      tr.length = fs.length ∧
      tr.map (List.filter isRx)
        = fs.map (fun f => [Ev.rx card ((f.1.getD []).take f.2.toNat) f.2]) := by
  have h1 := stack_outputs_of_queue dataSize fs g QueueCreate hq hfs
  obtain ⟨g2, tr, hl, htr⟩ := poll_loop_delivers dataSize evt card envs
    (fs.map frameOf) []
    { g with slirpq := some (QueueCreate ++ fs.map frameOf) }
    (by simp [QueueCreate]) hc (by simpa using hlen) hnn houts
  refine ⟨_, g2, tr, h1, hl, ?_, ?_⟩
  · have := congrArg List.length htr
    simpa using this
  · rw [htr]
    simp [List.map_map, Function.comp_def, frameOf]

/-- C2, with two frames handed over and two iterations, during the first of which the
stack enqueues a third frame. -/
theorem poll_loop_fifo_witness :
    ∃ g1 g2 tr,
      stack_outputs 2000
          { slirpq := some QueueCreate, poll_tid := some 9, poll_card := some 1,
            poll_state := some 7 }
          [(some [1, 2, 3], 3), (some [4, 5], 2)] = some g1 ∧
      poll_loop 2000 (some 8) g1
          [{ tic := { nfds := 3, tmo := 100, ret2 := 1, outs := [(some [6], 1)] },
             nuked := false, nukedLate := false },
           { tic := { nfds := -1, tmo := -1, ret2 := -1, outs := [] },
             nuked := false, nukedLate := false }] = some (g2, tr, false) ∧
      tr.length = [(some [1, 2, 3], (3 : Int)), (some [4, 5], 2)].length ∧
      tr.map (List.filter isRx)
        = [(some [1, 2, 3], (3 : Int)), (some [4, 5], 2)].map
            (fun f => [Ev.rx 1 ((f.1.getD []).take f.2.toNat) f.2]) :=
  poll_loop_fifo 2000 (some 8) 1
    { slirpq := some QueueCreate, poll_tid := some 9, poll_card := some 1, poll_state := some 7 }
    [(some [1, 2, 3], 3), (some [4, 5], 2)]
    [{ tic := { nfds := 3, tmo := 100, ret2 := 1, outs := [(some [6], 1)] },
       nuked := false, nukedLate := false },
     { tic := { nfds := -1, tmo := -1, ret2 := -1, outs := [] },
       nuked := false, nukedLate := false }]
    rfl rfl (by decide) rfl (by decide) (by decide)

/-- C9 (the code at the failing run): `net_slirp_close` clears `slirpq` while the first
iteration is inside `slirp_tic`. The `break` of line 142 leaves the loop, and the thread
destroys its event and signals `poll_state` having called `network_wait(1)` once and
`network_wait(0)` never. When the cleared handle is seen by the loop condition instead,
the two calls are paired. -/
theorem poll_thread_break_skips_release :
    poll_thread 2000 (some 8)
        { slirpq := some [], poll_tid := some 9, poll_card := some 1, poll_state := some 7 }
        [{ tic := { nfds := -1, tmo := -1, ret2 := 0, outs := [] },
           nuked := true, nukedLate := false }]
      = some ({ slirpq := none, poll_tid := some 9, poll_card := some 1, poll_state := some 7 },
              [Ev.thread_set_event (some 7), Ev.thread_create_event,
               Ev.network_wait 1, Ev.network_poll,
               Ev.slirp_select_fill, Ev.select 0 0 500, Ev.slirp_select_poll,
               Ev.thread_destroy_event (some 8), Ev.thread_set_event (some 7)],
              true) ∧
    poll_thread 2000 (some 8)
        { slirpq := some [], poll_tid := some 9, poll_card := some 1, poll_state := some 7 }
        [{ tic := { nfds := -1, tmo := -1, ret2 := 0, outs := [] },
           nuked := false, nukedLate := true }]
      = some ({ slirpq := none, poll_tid := some 9, poll_card := some 1, poll_state := some 7 },
              [Ev.thread_set_event (some 7), Ev.thread_create_event,
               Ev.network_wait 1, Ev.network_poll,
               Ev.slirp_select_fill, Ev.select 0 0 500, Ev.slirp_select_poll,
               Ev.QueuePeek, Ev.thread_wait_event (some 8) 10, Ev.network_wait 0,
               Ev.thread_destroy_event (some 8), Ev.thread_set_event (some 7)],
              true) := by
  constructor <;> rfl

end NetSlirp
